import Mathlib

/-!
Verification development for the Aadhaar card verification backend.

The definitions below are a shallow embedding of the decision logic of the
repository:

- `detect_from_bytes`, `detect_cards_from_base64` embed the per-image and
  per-request classification of `StatelessAadhaarDetector` in
  `backend/main_stateless.py`;
- `detect_aadhaar_cards_stateless` embeds the `/detect` endpoint handler of
  `backend/main_stateless.py`, with the manual review queue passed as explicit
  state;
- `detect_cards` embeds `AadhaarCardDetector.detect_cards` in
  `backend/main.py` (the legacy URL-based path);
- `detect` embeds `AadhaarDetector.detect` in `backend/onnx_detector.py`
  (the raw-tensor normalizer);
- `startup_event` and `loadThresholds` embed the startup and threshold
  configuration of `backend/main_stateless.py`.

Confidence values are modelled as rationals; the model inference itself is an
external black box, so each embedded function takes the list of detections the
model returned for an image as input.
-/

/-- The verification status enum of main_stateless.py (lines 59-62). -/
inductive VerificationStatus where
  | approved
  | rejected
  | pending_review
deriving DecidableEq, Repr

/-- One raw model detection: a class label and a confidence score.
This is the part of a YOLO box consumed by the decision logic
(`box.conf`, `box.cls` mapped through the class-name table). -/
structure Detection where
  label : String
  conf : ℚ
deriving DecidableEq, Repr

/-- One entry of a per-side `details` list: either a detection record
or an error record, as built by main.py and main_stateless.py. -/
inductive DetailEntry where
  | det (d : Detection)
  | err (msg : String)
deriving DecidableEq, Repr

/-- Default base confidence threshold (main_stateless.py line 53). -/
def CONFIDENCE_THRESHOLD : ℚ := 15/100

/-- Default low-confidence threshold (main_stateless.py line 54). -/
def LOW_CONFIDENCE_THRESHOLD : ℚ := 10/100

/-- The result dictionary of `StatelessAadhaarDetector.detect_from_bytes`
(main_stateless.py lines 163-169). -/
structure DetectResult where
  detected : Bool
  cls : Option String
  confidence : ℚ
  print_aadhar_detected : Bool
  all_detections : List Detection
deriving DecidableEq, Repr

/-- The print-Aadhaar (fraud) check of the detection loop
(main_stateless.py lines 185-187): the flag is set when a detection is
labelled print_aadhar with confidence strictly above the threshold. -/
def printStep (t : ℚ) (r : DetectResult) (d : Detection) : DetectResult :=
  if d.label = "print_aadhar" ∧ t < d.conf then
    { r with print_aadhar_detected := true }
  else r

/-- The card-matching check of the detection loop (main_stateless.py lines
189-194): a detection labelled aadhar_front or aadhar_back with confidence at
or above the threshold replaces the current best when its confidence is
strictly higher. -/
def matchStep (t : ℚ) (r : DetectResult) (d : Detection) : DetectResult :=
  if t ≤ d.conf ∧ (d.label = "aadhar_front" ∨ d.label = "aadhar_back")
      ∧ r.confidence < d.conf then
    { r with detected := true, cls := some d.label, confidence := d.conf }
  else r

/-- One iteration of the box loop of `detect_from_bytes` (main_stateless.py
lines 175-194): record the detection, run the fraud check, then the matching
check. -/
def detectStep (t : ℚ) (r : DetectResult) (d : Detection) : DetectResult :=
  matchStep t (printStep t { r with all_detections := r.all_detections ++ [d] } d) d

/-- The initial result dictionary of `detect_from_bytes`
(main_stateless.py lines 163-169). -/
def detectInit : DetectResult :=
  { detected := false, cls := none, confidence := 0,
    print_aadhar_detected := false, all_detections := [] }

/-- Embeds `StatelessAadhaarDetector.detect_from_bytes` (main_stateless.py
lines 155-200): fold the box loop over the model detections for one image. -/
def detect_from_bytes (boxes : List Detection) (t : ℚ) : DetectResult :=
  boxes.foldl (detectStep t) detectInit

/-- A detection visible to the matching stage of `detect_from_bytes`:
confidence at or above the threshold and a card label. -/
def isMatching (t : ℚ) (d : Detection) : Prop :=
  t ≤ d.conf ∧ (d.label = "aadhar_front" ∨ d.label = "aadhar_back")

instance (t : ℚ) (d : Detection) : Decidable (isMatching t d) := by
  unfold isMatching; infer_instance

/-- An image argument of `detect_cards_from_base64`: not supplied (None),
supplied but failing base64/cv2 decoding, or decoded with the model returning
the given detections. -/
inductive ImageInput where
  | absent
  | undecodable
  | decoded (boxes : List Detection)
deriving DecidableEq, Repr

/-- The per-side fields extracted by `detect_cards_from_base64` from one
side of the request. -/
structure SideOutcome where
  detected : Bool
  confidence : ℚ
  fraud : Bool
  details : List DetailEntry
deriving DecidableEq, Repr

/-- One side block of `detect_cards_from_base64` (main_stateless.py lines
227-263): decode the image, run `detect_from_bytes`, and accept the side only
when the best detected class equals the label expected for this slot. A decode
failure appends an error detail; a wrong-class or missing detection leaves the
side undetected with confidence 0. -/
def processSide (input : ImageInput) (t : ℚ) (expected : String)
    (sideName : String) : SideOutcome :=
  match input with
  | ImageInput.absent => { detected := false, confidence := 0, fraud := false, details := [] }
  | ImageInput.undecodable =>
      { detected := false, confidence := 0, fraud := false,
        details := [DetailEntry.err ("Failed to decode " ++ sideName ++ " image")] }
  | ImageInput.decoded boxes =>
      let r := detect_from_bytes boxes t
      if r.detected = true ∧ r.cls = some expected then
        { detected := true, confidence := r.confidence,
          fraud := r.print_aadhar_detected,
          details := r.all_detections.map DetailEntry.det }
      else
        { detected := false, confidence := 0,
          fraud := r.print_aadhar_detected,
          details := r.all_detections.map DetailEntry.det }

/-- The result dictionary of `detect_cards_from_base64`
(main_stateless.py lines 214-225). -/
structure CardsResult where
  front_detected : Bool
  back_detected : Bool
  front_confidence : ℚ
  back_confidence : ℚ
  print_aadhar_detected : Bool
  details_front : List DetailEntry
  details_back : List DetailEntry
  status : VerificationStatus
deriving DecidableEq, Repr

/-- The side-processing part of `detect_cards_from_base64` (main_stateless.py
lines 214-263): both sides are processed independently; the fraud flag is the
disjunction of the per-side fraud signals; the status field still holds its
initial REJECTED value. -/
def buildCardsResult (front back : ImageInput) (t : ℚ) : CardsResult :=
  let f := processSide front t "aadhar_front" "front"
  let b := processSide back t "aadhar_back" "back"
  { front_detected := f.detected, back_detected := b.detected,
    front_confidence := f.confidence, back_confidence := b.confidence,
    print_aadhar_detected := f.fraud || b.fraud,
    details_front := f.details, details_back := b.details,
    status := VerificationStatus.rejected }

/-- The status decision of `detect_cards_from_base64` (main_stateless.py lines
265-279), evaluated on the built result: fraud first, then the both-detected
branch with the low-confidence check, then the single-side branch. In the
single-side branch the Python expression
`result["front_confidence"] or result["back_confidence"]` picks the front
confidence when it is nonzero and the back confidence otherwise, and the
status is only changed when that confidence is below the low threshold. -/
def applyStatus (low : ℚ) (r : CardsResult) : CardsResult :=
  if r.print_aadhar_detected = true then
    { r with status := VerificationStatus.rejected }
  else if r.front_detected = true ∧ r.back_detected = true then
    if r.front_confidence < low ∨ r.back_confidence < low then
      { r with status := VerificationStatus.pending_review }
    else
      { r with status := VerificationStatus.approved }
  else if r.front_detected = true ∨ r.back_detected = true then
    if (if r.front_confidence ≠ 0 then r.front_confidence else r.back_confidence) < low then
      { r with status := VerificationStatus.pending_review }
    else r
  else r

/-- Embeds `StatelessAadhaarDetector.detect_cards_from_base64`
(main_stateless.py lines 202-280). The module-level LOW_CONFIDENCE_THRESHOLD
is environment-configurable and passed here as the `low` parameter. -/
def detect_cards_from_base64 (front back : ImageInput) (t low : ℚ) : CardsResult :=
  applyStatus low (buildCardsResult front back t)

/-! ## The legacy path of backend/main.py -/

/-- The per-side result fields of `AadhaarCardDetector.detect_cards`
(main.py lines 78-88). -/
structure MainSideResult where
  detected : Bool
  confidence : ℚ
  print_fired : Bool
  details : List DetailEntry
deriving DecidableEq, Repr

/-- One iteration of a side loop of `AadhaarCardDetector.detect_cards`
(main.py lines 96-117 and 133-153): detections below the threshold are
skipped; a print_aadhar label sets the fraud flag; a detection whose label
equals the slot label overwrites the side confidence and appends a detail.
Note the overwrite: the side confidence ends as the last matching detection
scanned, with no running max. -/
def mainPyStep (t : ℚ) (slotLabel : String) (r : MainSideResult)
    (d : Detection) : MainSideResult :=
  if d.conf < t then r
  else if d.label = "print_aadhar" then { r with print_fired := true }
  else if d.label = slotLabel then
    { r with detected := true, confidence := d.conf,
             details := r.details ++ [DetailEntry.det d] }
  else r

/-- The side loop of `AadhaarCardDetector.detect_cards` over the model
detections of one image. -/
def mainPySide (boxes : List Detection) (t : ℚ) (slotLabel : String) : MainSideResult :=
  boxes.foldl (mainPyStep t slotLabel)
    { detected := false, confidence := 0, print_fired := false, details := [] }

/-- A path argument of `AadhaarCardDetector.detect_cards`: not supplied,
supplied but the file does not exist, or readable with the model returning
the given detections. -/
inductive PathInput where
  | absent
  | notFound
  | readable (boxes : List Detection)
deriving DecidableEq, Repr

/-- One side block of `detect_cards` (main.py lines 91-125 and 128-161):
a missing file appends an error detail; a readable image runs the side loop. -/
def mainPyProcessPath (input : PathInput) (t : ℚ) (slotLabel : String)
    (sideName : String) : MainSideResult :=
  match input with
  | PathInput.absent =>
      { detected := false, confidence := 0, print_fired := false, details := [] }
  | PathInput.notFound =>
      { detected := false, confidence := 0, print_fired := false,
        details := [DetailEntry.err (sideName ++ " image not found at path")] }
  | PathInput.readable boxes => mainPySide boxes t slotLabel

/-- The result dictionary of `AadhaarCardDetector.detect_cards`
(main.py lines 78-88); this legacy path computes no status field. -/
structure MainCardsResult where
  front_detected : Bool
  back_detected : Bool
  front_confidence : ℚ
  back_confidence : ℚ
  print_aadhar_detected : Bool
  details_front : List DetailEntry
  details_back : List DetailEntry
deriving DecidableEq, Repr

/-- Embeds `AadhaarCardDetector.detect_cards` (main.py lines 59-163). -/
def detect_cards (front back : PathInput) (t : ℚ) : MainCardsResult :=
  let f := mainPyProcessPath front t "aadhar_front" "Front"
  let b := mainPyProcessPath back t "aadhar_back" "Back"
  { front_detected := f.detected, back_detected := b.detected,
    front_confidence := f.confidence, back_confidence := b.confidence,
    print_aadhar_detected := f.print_fired || b.print_fired,
    details_front := f.details, details_back := b.details }

/-! ## The /detect endpoint of backend/main_stateless.py -/

/-- A manual review queue item (main_stateless.py lines 322-328). -/
structure ManualReviewItem where
  user_id : String
  timestamp : String
  front_confidence : ℚ
  back_confidence : ℚ
  reason : String
deriving DecidableEq, Repr

/-- Embeds `add_to_review_queue` (main_stateless.py lines 347-350): a single
append to the in-memory queue. The handler schedules it as a background task
that runs once after the response; its net effect on the queue is this
append. -/
def add_to_review_queue (queue : List ManualReviewItem)
    (item : ManualReviewItem) : List ManualReviewItem :=
  queue ++ [item]

/-- The request body of the /detect endpoint (main_stateless.py lines
313-319). The base64 image strings are modelled by their decode outcome. -/
structure DetectionRequestBase64 where
  user_id : String
  front_image : ImageInput
  back_image : ImageInput
  confidence_threshold : ℚ
  force_upload : Bool
deriving DecidableEq, Repr

/-- The JSON response of the /detect endpoint, flattened: fields absent from a
given branch of the handler are `none`. -/
structure ApiResponse where
  status_code : ℕ
  success : Bool
  detected : Option Bool
  message : String
  status : Option VerificationStatus
  print_aadhar_detected : Option Bool
  front_detected : Option Bool
  back_detected : Option Bool
  front_confidence : Option ℚ
  back_confidence : Option ℚ
  both_detected : Option Bool
deriving DecidableEq, Repr

/-- Whether an image argument was supplied in the request body
(Python truthiness of the optional base64 string). -/
def ImageInput.supplied : ImageInput → Bool
  | ImageInput.absent => false
  | _ => true

/-- The message composition of the /detect endpoint (main_stateless.py lines
450-466): both detected, front only, back only, or an enumeration of the
supplied sides that failed to match. -/
def composeMessage (frontSupplied backSupplied front_ok back_ok : Bool) : String :=
  if front_ok && back_ok && frontSupplied && backSupplied then
    "Both Aadhaar cards detected successfully."
  else if front_ok then "Aadhaar front card detected successfully."
  else if back_ok then "Aadhaar back card detected successfully."
  else
    let missing := (if frontSupplied && !front_ok then ["front"] else []) ++
                   (if backSupplied && !back_ok then ["back"] else [])
    if missing.isEmpty then "No Aadhaar card detected in the provided image(s)."
    else "Could not detect Aadhaar card(s): " ++ String.intercalate (", ") missing ++ "."

/-- The `detection_result` local of the /detect handler (main_stateless.py
lines 386-391): the call into `detect_cards_from_base64` with the request
images and threshold. -/
def detection_result (req : DetectionRequestBase64) (low : ℚ) : CardsResult :=
  detect_cards_from_base64 req.front_image req.back_image
    req.confidence_threshold low

/-- Embeds the /detect handler `detect_aadhaar_cards_stateless`
(main_stateless.py lines 353-494), with the detector assumed initialized and
the JWT check passed (both are outside the decision logic). The manual review
queue is passed as explicit state and the pair returned is
(response, queue after all scheduled background tasks ran). Branch order as in
the source: missing-images check, fraud check, force-upload branch,
low-confidence enqueue, then the normal response. -/
def detect_aadhaar_cards_stateless (req : DetectionRequestBase64) (low : ℚ)
    (now : String) (queue : List ManualReviewItem) :
    ApiResponse × List ManualReviewItem :=
  if req.front_image.supplied = false ∧ req.back_image.supplied = false then
    ({ status_code := 400, success := false, detected := none,
       message := "At least one image (front_image or back_image) is required.",
       status := none, print_aadhar_detected := none,
       front_detected := none, back_detected := none,
       front_confidence := none, back_confidence := none,
       both_detected := none }, queue)
  else if (detection_result req low).print_aadhar_detected = true then
    ({ status_code := 400, success := false, detected := none,
       message := "Print Aadhaar detected - security violation",
       status := none, print_aadhar_detected := some true,
       front_detected := none, back_detected := none,
       front_confidence := none, back_confidence := none,
       both_detected := none }, queue)
  else if req.force_upload = true
      ∧ ¬((detection_result req low).front_detected = true
          ∧ (detection_result req low).back_detected = true) then
    ({ status_code := 200, success := true, detected := some true,
       message := "Document submitted for manual review",
       status := some VerificationStatus.pending_review,
       print_aadhar_detected := none,
       front_detected := some (detection_result req low).front_detected,
       back_detected := some (detection_result req low).back_detected,
       front_confidence := some (detection_result req low).front_confidence,
       back_confidence := some (detection_result req low).back_confidence,
       both_detected := some ((detection_result req low).front_detected
         && (detection_result req low).back_detected) },
     add_to_review_queue queue
       { user_id := req.user_id, timestamp := now,
         front_confidence := (detection_result req low).front_confidence,
         back_confidence := (detection_result req low).back_confidence,
         reason := "Force upload - bypassed client-side checks" })
  else
    ({ status_code := 200, success := true,
       detected := some ((detection_result req low).front_detected
         || (detection_result req low).back_detected),
       message := composeMessage req.front_image.supplied req.back_image.supplied
         (detection_result req low).front_detected
         (detection_result req low).back_detected,
       status := some (detection_result req low).status,
       print_aadhar_detected := none,
       front_detected := some (detection_result req low).front_detected,
       back_detected := some (detection_result req low).back_detected,
       front_confidence := some (detection_result req low).front_confidence,
       back_confidence := some (detection_result req low).back_confidence,
       both_detected := some ((detection_result req low).front_detected
         && (detection_result req low).back_detected
         && req.front_image.supplied && req.back_image.supplied) },
     if (detection_result req low).status = VerificationStatus.pending_review then
       add_to_review_queue queue
         { user_id := req.user_id, timestamp := now,
           front_confidence := (detection_result req low).front_confidence,
           back_confidence := (detection_result req low).back_confidence,
           reason := "Low confidence detection" }
     else queue)

/-! ## The raw-tensor normalizer of backend/onnx_detector.py -/

/-- One candidate column of the YOLO output tensor `[1, 7, 8400]`
(onnx_detector.py lines 94-96): four box channels followed by the three class
score channels (channel 4 + c carries the score of class c). -/
structure Candidate where
  x : ℚ
  y : ℚ
  w : ℚ
  h : ℚ
  s0 : ℚ
  s1 : ℚ
  s2 : ℚ
deriving DecidableEq, Repr

/-- The class-name table of onnx_detector.py (line 18). -/
def CLASS_NAMES : List String := ["aadhaar_back", "aadhaar_front", "print_aadhaar"]

/-- The confidence threshold of onnx_detector.py (line 19). -/
def ONNX_CONFIDENCE_THRESHOLD : ℚ := 25/100

/-- The model input size of onnx_detector.py (line 16). -/
def MODEL_INPUT_SIZE : ℚ := 640

/-- The per-candidate maximum class score (onnx_detector.py lines 111-116). -/
def maxScore (c : Candidate) : ℚ := max c.s0 (max c.s1 c.s2)

/-- The per-candidate argmax class index: Python `list.index(max(list))`
returns the first index attaining the maximum. -/
def maxClassIdx (c : Candidate) : ℕ :=
  if c.s0 = maxScore c then 0 else if c.s1 = maxScore c then 1 else 2

/-- A bounding box in original-image pixel space (onnx_detector.py
lines 141-146). -/
structure BBox where
  bx : ℚ
  by' : ℚ
  bwidth : ℚ
  bheight : ℚ
deriving DecidableEq, Repr

/-- The best-detection record of `AadhaarDetector.detect`
(onnx_detector.py lines 100-105). -/
structure BestDetection where
  detected : Bool
  card_type : Option String
  confidence : ℚ
  bbox : Option BBox
deriving DecidableEq, Repr

/-- One iteration of the candidate loop of `AadhaarDetector.detect`
(onnx_detector.py lines 109-147): the best detection is replaced when the
candidate maximum class score is strictly above the threshold and strictly
above the current best confidence; the box converts center coordinates to a
top-left origin and scales from model-input space to image space. -/
def onnxStep (ow oh : ℚ) (best : BestDetection) (c : Candidate) : BestDetection :=
  if ONNX_CONFIDENCE_THRESHOLD < maxScore c ∧ best.confidence < maxScore c then
    { detected := true,
      card_type := CLASS_NAMES[maxClassIdx c]?,
      confidence := maxScore c,
      bbox := some { bx := (c.x - c.w / 2) * (ow / MODEL_INPUT_SIZE),
                     by' := (c.y - c.h / 2) * (oh / MODEL_INPUT_SIZE),
                     bwidth := c.w * (ow / MODEL_INPUT_SIZE),
                     bheight := c.h * (oh / MODEL_INPUT_SIZE) } }
  else best

/-- Embeds `AadhaarDetector.detect` (onnx_detector.py lines 73-156) on the
candidate columns of the output tensor, for an original image of width `ow`
and height `oh`. The all_detections list of the source is only sorted and
printed, so it is not modelled. -/
def detect (ow oh : ℚ) (cands : List Candidate) : BestDetection :=
  cands.foldl (onnxStep ow oh)
    { detected := false, card_type := none, confidence := 0, bbox := none }

/-! ## Startup and threshold configuration of backend/main_stateless.py -/

/-- Embeds the module-level threshold configuration of main_stateless.py
(lines 52-54): each threshold is read from the environment with a default and
stored; no consistency validation of any kind is performed on the pair. -/
def loadThresholds (envConf envLow : Option ℚ) : ℚ × ℚ :=
  (envConf.getD CONFIDENCE_THRESHOLD, envLow.getD LOW_CONFIDENCE_THRESHOLD)

/-- Outcome of the startup hook. -/
inductive StartupOutcome where
  | initialized
  | exited
deriving DecidableEq, Repr

/-- Embeds `startup_event` (main_stateless.py lines 335-344): the detector is
constructed, and the process exits only when that construction fails (the
model file is missing). The configured thresholds are never inspected. -/
def startup_event (modelExists : Bool) (thresholds : ℚ × ℚ) : StartupOutcome :=
  if modelExists then StartupOutcome.initialized else StartupOutcome.exited

/-! ## Invariants of the stateless detection loop -/

theorem printStep_confidence (t : ℚ) (r : DetectResult) (d : Detection) :
    (printStep t r d).confidence = r.confidence := by
  unfold printStep; split_ifs <;> rfl

theorem printStep_cls (t : ℚ) (r : DetectResult) (d : Detection) :
    (printStep t r d).cls = r.cls := by
  unfold printStep; split_ifs <;> rfl

theorem printStep_detected (t : ℚ) (r : DetectResult) (d : Detection) :
    (printStep t r d).detected = r.detected := by
  unfold printStep; split_ifs <;> rfl

theorem printStep_print_iff (t : ℚ) (r : DetectResult) (d : Detection) :
    (printStep t r d).print_aadhar_detected = true ↔
      (r.print_aadhar_detected = true ∨ (d.label = "print_aadhar" ∧ t < d.conf)) := by
  unfold printStep
  split_ifs with h
  · simp [h]
  · simp [h]

theorem matchStep_print (t : ℚ) (r : DetectResult) (d : Detection) :
    (matchStep t r d).print_aadhar_detected = r.print_aadhar_detected := by
  unfold matchStep; split_ifs <;> rfl

/-- Case analysis on one matching step: either every decision field is
unchanged and no strict improvement by a matching detection was possible, or
the detection is matching, strictly improves the running confidence, and
becomes the current best. -/
theorem matchStep_cases (t : ℚ) (r : DetectResult) (d : Detection) :
    ((matchStep t r d).confidence = r.confidence ∧ (matchStep t r d).cls = r.cls
      ∧ (matchStep t r d).detected = r.detected
      ∧ ¬(isMatching t d ∧ r.confidence < d.conf))
    ∨ (isMatching t d ∧ r.confidence < d.conf
      ∧ (matchStep t r d).confidence = d.conf
      ∧ (matchStep t r d).cls = some d.label
      ∧ (matchStep t r d).detected = true) := by
  unfold matchStep isMatching
  split_ifs with h
  · exact Or.inr ⟨⟨h.1, h.2.1⟩, h.2.2, rfl, rfl, rfl⟩
  · refine Or.inl ⟨rfl, rfl, rfl, ?_⟩
    rintro ⟨⟨h1, h2⟩, h3⟩
    exact h ⟨h1, h2, h3⟩

theorem detectStep_confidence_cases (t : ℚ) (r : DetectResult) (d : Detection) :
    ((detectStep t r d).confidence = r.confidence ∧ (detectStep t r d).cls = r.cls
      ∧ (detectStep t r d).detected = r.detected
      ∧ ¬(isMatching t d ∧ r.confidence < d.conf))
    ∨ (isMatching t d ∧ r.confidence < d.conf
      ∧ (detectStep t r d).confidence = d.conf
      ∧ (detectStep t r d).cls = some d.label
      ∧ (detectStep t r d).detected = true) := by
  have h := matchStep_cases t (printStep t { r with all_detections := r.all_detections ++ [d] } d) d
  rw [printStep_confidence, printStep_cls, printStep_detected] at h
  exact h

theorem detectStep_print_iff (t : ℚ) (r : DetectResult) (d : Detection) :
    (detectStep t r d).print_aadhar_detected = true ↔
      (r.print_aadhar_detected = true ∨ (d.label = "print_aadhar" ∧ t < d.conf)) := by
  unfold detectStep
  rw [matchStep_print, printStep_print_iff]

/-- The main invariant of the box loop of `detect_from_bytes`: the running
confidence only grows; the decision fields either survive the whole fold
unchanged or end at some matching detection that strictly improved the running
confidence; every matching detection is bounded by the final confidence; and
the fraud flag fires exactly when some detection is a print_aadhar above the
threshold. -/
theorem detectFold_spec (t : ℚ) (boxes : List Detection) (r : DetectResult) :
    r.confidence ≤ (boxes.foldl (detectStep t) r).confidence
    ∧ (((boxes.foldl (detectStep t) r).confidence = r.confidence
        ∧ (boxes.foldl (detectStep t) r).cls = r.cls
        ∧ (boxes.foldl (detectStep t) r).detected = r.detected)
      ∨ ∃ d ∈ boxes, isMatching t d ∧ r.confidence < d.conf
          ∧ (boxes.foldl (detectStep t) r).confidence = d.conf
          ∧ (boxes.foldl (detectStep t) r).cls = some d.label
          ∧ (boxes.foldl (detectStep t) r).detected = true)
    ∧ (∀ d ∈ boxes, isMatching t d → d.conf ≤ (boxes.foldl (detectStep t) r).confidence)
    ∧ ((boxes.foldl (detectStep t) r).print_aadhar_detected = true ↔
        (r.print_aadhar_detected = true
          ∨ ∃ d ∈ boxes, d.label = "print_aadhar" ∧ t < d.conf)) := by
  induction boxes generalizing r with
  | nil => simp
  | cons d ds ih =>
    rw [List.foldl_cons]
    obtain ⟨ih1, ih2, ih3, ih4⟩ := ih (detectStep t r d)
    rcases detectStep_confidence_cases t r d with
      ⟨hc, hl, hd, hno⟩ | ⟨hm, hlt, hc, hl, hd⟩
    · refine ⟨?_, ?_, ?_, ?_⟩
      · rw [← hc]; exact ih1
      · rcases ih2 with ⟨e1, e2, e3⟩ | ⟨e, he, hme, hlte, hce, hle, hde⟩
        · exact Or.inl ⟨e1.trans hc, e2.trans hl, e3.trans hd⟩
        · exact Or.inr ⟨e, List.mem_cons_of_mem d he, hme, hc ▸ hlte, hce, hle, hde⟩
      · intro e he hme
        rcases List.mem_cons.mp he with rfl | he2
        · by_cases hcd : r.confidence < e.conf
          · exact absurd ⟨hme, hcd⟩ hno
          · calc e.conf ≤ r.confidence := not_lt.mp hcd
              _ = (detectStep t r e).confidence := hc.symm
              _ ≤ _ := ih1
        · exact ih3 e he2 hme
      · rw [ih4, detectStep_print_iff, List.exists_mem_cons_iff]
        exact or_assoc
    · refine ⟨?_, ?_, ?_, ?_⟩
      · calc r.confidence ≤ d.conf := le_of_lt hlt
          _ = (detectStep t r d).confidence := hc.symm
          _ ≤ _ := ih1
      · rcases ih2 with ⟨e1, e2, e3⟩ | ⟨e, he, hme, hlte, hce, hle, hde⟩
        · exact Or.inr ⟨d, List.mem_cons_self d ds, hm, hlt,
            e1.trans hc, e2.trans hl, e3.trans hd⟩
        · exact Or.inr ⟨e, List.mem_cons_of_mem d he, hme,
            lt_trans (hc ▸ hlt) hlte, hce, hle, hde⟩
      · intro e he hme
        rcases List.mem_cons.mp he with rfl | he2
        · calc e.conf = (detectStep t r e).confidence := hc.symm
            _ ≤ _ := ih1
        · exact ih3 e he2 hme
      · rw [ih4, detectStep_print_iff, List.exists_mem_cons_iff]
        exact or_assoc

theorem detect_from_bytes_detected_spec (boxes : List Detection) (t : ℚ)
    (h : (detect_from_bytes boxes t).detected = true) :
    t ≤ (detect_from_bytes boxes t).confidence
    ∧ 0 < (detect_from_bytes boxes t).confidence
    ∧ (∃ d ∈ boxes, isMatching t d
        ∧ d.conf = (detect_from_bytes boxes t).confidence
        ∧ (detect_from_bytes boxes t).cls = some d.label)
    ∧ ∀ d ∈ boxes, isMatching t d → d.conf ≤ (detect_from_bytes boxes t).confidence := by
  obtain ⟨_, h2, h3, _⟩ := detectFold_spec t boxes detectInit
  rcases h2 with ⟨_, _, hdet⟩ | ⟨d, hd, hm, hlt, hc, hl, _⟩
  · rw [detect_from_bytes] at h
    rw [h] at hdet
    exact absurd hdet.symm (by simp [detectInit])
  · rw [detect_from_bytes] at *
    refine ⟨?_, ?_, ⟨d, hd, hm, hc.symm, hl⟩, h3⟩
    · rw [hc]; exact hm.1
    · rw [hc]; exact lt_of_le_of_lt (le_refl 0) (by simpa [detectInit] using hlt)

theorem detect_from_bytes_not_detected (boxes : List Detection) (t : ℚ)
    (h : (detect_from_bytes boxes t).detected = false) :
    (detect_from_bytes boxes t).confidence = 0 := by
  obtain ⟨_, h2, _, _⟩ := detectFold_spec t boxes detectInit
  rcases h2 with ⟨hc, _, _⟩ | ⟨d, _, _, _, _, _, hdet⟩
  · rw [detect_from_bytes] at *
    rw [hc]; rfl
  · rw [detect_from_bytes] at h
    rw [h] at hdet
    exact absurd hdet (by simp)

theorem detect_from_bytes_print_iff (boxes : List Detection) (t : ℚ) :
    (detect_from_bytes boxes t).print_aadhar_detected = true ↔
      ∃ d ∈ boxes, d.label = "print_aadhar" ∧ t < d.conf := by
  obtain ⟨_, _, _, h4⟩ := detectFold_spec t boxes detectInit
  rw [detect_from_bytes]
  rw [h4]
  simp [detectInit]

/-! ## Invariants of the per-side processing of the stateless request -/

theorem processSide_not_detected (input : ImageInput) (t : ℚ)
    (expected sideName : String)
    (h : (processSide input t expected sideName).detected = false) :
    (processSide input t expected sideName).confidence = 0 := by
  cases input with
  | absent => rfl
  | undecodable => rfl
  | decoded boxes =>
    simp only [processSide] at h ⊢
    by_cases hc : (detect_from_bytes boxes t).detected = true
        ∧ (detect_from_bytes boxes t).cls = some expected
    · rw [if_pos hc] at h
      exact absurd h (by simp)
    · rw [if_neg hc]

theorem processSide_detected (input : ImageInput) (t : ℚ)
    (expected sideName : String)
    (h : (processSide input t expected sideName).detected = true) :
    t ≤ (processSide input t expected sideName).confidence
    ∧ 0 < (processSide input t expected sideName).confidence := by
  cases input with
  | absent => exact absurd h (by simp [processSide])
  | undecodable => exact absurd h (by simp [processSide])
  | decoded boxes =>
    simp only [processSide] at h ⊢
    by_cases hc : (detect_from_bytes boxes t).detected = true
        ∧ (detect_from_bytes boxes t).cls = some expected
    · rw [if_pos hc] at h ⊢
      obtain ⟨h1, h2, _, _⟩ := detect_from_bytes_detected_spec boxes t hc.1
      exact ⟨h1, h2⟩
    · rw [if_neg hc] at h
      exact absurd h (by simp)

theorem buildCardsResult_front (front back : ImageInput) (t : ℚ) :
    (buildCardsResult front back t).front_detected
        = (processSide front t "aadhar_front" "front").detected
      ∧ (buildCardsResult front back t).front_confidence
        = (processSide front t "aadhar_front" "front").confidence := ⟨rfl, rfl⟩

theorem buildCardsResult_back (front back : ImageInput) (t : ℚ) :
    (buildCardsResult front back t).back_detected
        = (processSide back t "aadhar_back" "back").detected
      ∧ (buildCardsResult front back t).back_confidence
        = (processSide back t "aadhar_back" "back").confidence := ⟨rfl, rfl⟩

theorem buildCardsResult_status (front back : ImageInput) (t : ℚ) :
    (buildCardsResult front back t).status = VerificationStatus.rejected := rfl

/-! ## Invariants of the status decision -/

/-- The status decision changes no field other than status. -/
theorem applyStatus_fields (low : ℚ) (r : CardsResult) :
    (applyStatus low r).front_detected = r.front_detected
    ∧ (applyStatus low r).back_detected = r.back_detected
    ∧ (applyStatus low r).front_confidence = r.front_confidence
    ∧ (applyStatus low r).back_confidence = r.back_confidence
    ∧ (applyStatus low r).print_aadhar_detected = r.print_aadhar_detected := by
  unfold applyStatus
  split_ifs <;> exact ⟨rfl, rfl, rfl, rfl, rfl⟩

theorem applyStatus_print (low : ℚ) (r : CardsResult)
    (h : r.print_aadhar_detected = true) :
    (applyStatus low r).status = VerificationStatus.rejected := by
  unfold applyStatus
  rw [if_pos h]

/-- The status is APPROVED exactly when no fraud fired, both sides were
detected and both confidences are at or above the low threshold. -/
theorem applyStatus_approved_iff (low : ℚ) (r : CardsResult)
    (hst : r.status = VerificationStatus.rejected) :
    (applyStatus low r).status = VerificationStatus.approved ↔
      (r.print_aadhar_detected = false ∧ r.front_detected = true
        ∧ r.back_detected = true
        ∧ low ≤ r.front_confidence ∧ low ≤ r.back_confidence) := by
  constructor
  · intro h
    unfold applyStatus at h
    split_ifs at h with h1 h2 h3
    · simp only [Bool.not_eq_true] at h1
      exact ⟨h1, h2.1, h2.2,
        not_lt.mp (not_or.mp h3).1, not_lt.mp (not_or.mp h3).2⟩
    all_goals (rw [hst] at h; simp at h)
  · rintro ⟨hp, hf, hb, hlf, hlb⟩
    unfold applyStatus
    rw [if_neg (by simp [hp]), if_pos ⟨hf, hb⟩, if_neg]
    rintro (hlt | hlt)
    · exact absurd hlf (not_le.mpr hlt)
    · exact absurd hlb (not_le.mpr hlt)

/-- In the single-side branch with the front side detected at a nonzero
confidence at or above the low threshold, the status keeps its initial
value. -/
theorem applyStatus_single_front (low : ℚ) (r : CardsResult)
    (hp : r.print_aadhar_detected = false)
    (hf : r.front_detected = true) (hb : r.back_detected = false)
    (hne : r.front_confidence ≠ 0) (hge : low ≤ r.front_confidence) :
    (applyStatus low r).status = r.status := by
  unfold applyStatus
  rw [if_neg (by simp [hp]), if_neg (by simp [hb]), if_pos (Or.inl hf),
    if_neg]
  rw [if_pos hne]
  exact not_lt.mpr hge

/-- In the single-side branch with the back side detected at a confidence at
or above the low threshold and the front side at confidence zero, the status
keeps its initial value. -/
theorem applyStatus_single_back (low : ℚ) (r : CardsResult)
    (hp : r.print_aadhar_detected = false)
    (hf : r.front_detected = false) (hb : r.back_detected = true)
    (hzero : r.front_confidence = 0) (hge : low ≤ r.back_confidence) :
    (applyStatus low r).status = r.status := by
  unfold applyStatus
  rw [if_neg (by simp [hp]), if_neg (by simp [hf]), if_pos (Or.inr hb),
    if_neg]
  rw [if_neg (by simp [hzero])]
  exact not_lt.mpr hge

/-! ## Invariants of the legacy side loop of backend/main.py -/

theorem mainPyStep_cases (t : ℚ) (L : String) (r : MainSideResult) (d : Detection) :
    ((mainPyStep t L r d).confidence = r.confidence
      ∧ (mainPyStep t L r d).detected = r.detected)
    ∨ (t ≤ d.conf ∧ d.label = L
      ∧ (mainPyStep t L r d).confidence = d.conf
      ∧ (mainPyStep t L r d).detected = true) := by
  unfold mainPyStep
  split_ifs with h1 h2 h3
  · exact Or.inl ⟨rfl, rfl⟩
  · exact Or.inl ⟨rfl, rfl⟩
  · exact Or.inr ⟨not_lt.mp h1, h3, rfl, rfl⟩
  · exact Or.inl ⟨rfl, rfl⟩

/-- The legacy side loop either leaves the decision fields unchanged or ends
at some matching, above-threshold detection (the last one scanned, with no
maximum taken). -/
theorem mainPyFold_spec (t : ℚ) (L : String) (boxes : List Detection)
    (r : MainSideResult) :
    ((boxes.foldl (mainPyStep t L) r).confidence = r.confidence
      ∧ (boxes.foldl (mainPyStep t L) r).detected = r.detected)
    ∨ (∃ d ∈ boxes, t ≤ d.conf ∧ d.label = L
        ∧ (boxes.foldl (mainPyStep t L) r).confidence = d.conf
        ∧ (boxes.foldl (mainPyStep t L) r).detected = true) := by
  induction boxes generalizing r with
  | nil => exact Or.inl ⟨rfl, rfl⟩
  | cons d ds ih =>
    rw [List.foldl_cons]
    rcases mainPyStep_cases t L r d with ⟨hc, hd⟩ | ⟨hge, hl, hc, hd⟩
    · rcases ih (mainPyStep t L r d) with ⟨e1, e2⟩ | ⟨e, he, h1, h2, h3, h4⟩
      · exact Or.inl ⟨e1.trans hc, e2.trans hd⟩
      · exact Or.inr ⟨e, List.mem_cons_of_mem d he, h1, h2, h3, h4⟩
    · rcases ih (mainPyStep t L r d) with ⟨e1, e2⟩ | ⟨e, he, h1, h2, h3, h4⟩
      · exact Or.inr ⟨d, List.mem_cons_self d ds, hge, hl, e1.trans hc, e2.trans hd⟩
      · exact Or.inr ⟨e, List.mem_cons_of_mem d he, h1, h2, h3, h4⟩

theorem mainPySide_detected (boxes : List Detection) (t : ℚ) (L : String)
    (h : (mainPySide boxes t L).detected = true) :
    t ≤ (mainPySide boxes t L).confidence := by
  rcases mainPyFold_spec t L boxes
      { detected := false, confidence := 0, print_fired := false, details := [] } with
    ⟨_, hd⟩ | ⟨d, _, hge, _, hc, _⟩
  · rw [mainPySide] at h
    rw [h] at hd
    exact absurd hd.symm (by simp)
  · rw [mainPySide] at *
    rw [hc]
    exact hge

theorem mainPySide_not_detected (boxes : List Detection) (t : ℚ) (L : String)
    (h : (mainPySide boxes t L).detected = false) :
    (mainPySide boxes t L).confidence = 0 := by
  rcases mainPyFold_spec t L boxes
      { detected := false, confidence := 0, print_fired := false, details := [] } with
    ⟨hc, _⟩ | ⟨d, _, _, _, _, hd⟩
  · rw [mainPySide] at *
    rw [hc]
  · rw [mainPySide] at h
    rw [h] at hd
    exact absurd hd (by simp)

theorem mainPyProcessPath_detected (input : PathInput) (t : ℚ)
    (L sideName : String)
    (h : (mainPyProcessPath input t L sideName).detected = true) :
    t ≤ (mainPyProcessPath input t L sideName).confidence := by
  cases input with
  | absent => exact absurd h (by simp [mainPyProcessPath])
  | notFound => exact absurd h (by simp [mainPyProcessPath])
  | readable boxes => exact mainPySide_detected boxes t L h

theorem mainPyProcessPath_not_detected (input : PathInput) (t : ℚ)
    (L sideName : String)
    (h : (mainPyProcessPath input t L sideName).detected = false) :
    (mainPyProcessPath input t L sideName).confidence = 0 := by
  cases input with
  | absent => rfl
  | notFound => rfl
  | readable boxes => exact mainPySide_not_detected boxes t L h

/-! ## Invariants of the raw-tensor normalizer loop -/

theorem onnxStep_cases (ow oh : ℚ) (best : BestDetection) (c : Candidate) :
    ((onnxStep ow oh best c).confidence = best.confidence
      ∧ (onnxStep ow oh best c).card_type = best.card_type
      ∧ (onnxStep ow oh best c).detected = best.detected
      ∧ ¬(ONNX_CONFIDENCE_THRESHOLD < maxScore c ∧ best.confidence < maxScore c))
    ∨ (ONNX_CONFIDENCE_THRESHOLD < maxScore c ∧ best.confidence < maxScore c
      ∧ (onnxStep ow oh best c).confidence = maxScore c
      ∧ (onnxStep ow oh best c).card_type = CLASS_NAMES[maxClassIdx c]?
      ∧ (onnxStep ow oh best c).detected = true) := by
  unfold onnxStep
  split_ifs with h
  · exact Or.inr ⟨h.1, h.2, rfl, rfl, rfl⟩
  · exact Or.inl ⟨rfl, rfl, rfl, h⟩

/-- The main invariant of the candidate loop of the normalizer: the running
best confidence only grows; the best-detection fields either survive the fold
unchanged or end at some candidate above the threshold whose maximum class
score strictly improved the running best; and every candidate above the
threshold is bounded by the final best confidence. -/
theorem onnxFold_spec (ow oh : ℚ) (cands : List Candidate) (best : BestDetection) :
    best.confidence ≤ (cands.foldl (onnxStep ow oh) best).confidence
    ∧ (((cands.foldl (onnxStep ow oh) best).confidence = best.confidence
        ∧ (cands.foldl (onnxStep ow oh) best).card_type = best.card_type
        ∧ (cands.foldl (onnxStep ow oh) best).detected = best.detected)
      ∨ ∃ c ∈ cands, ONNX_CONFIDENCE_THRESHOLD < maxScore c
          ∧ best.confidence < maxScore c
          ∧ (cands.foldl (onnxStep ow oh) best).confidence = maxScore c
          ∧ (cands.foldl (onnxStep ow oh) best).card_type = CLASS_NAMES[maxClassIdx c]?
          ∧ (cands.foldl (onnxStep ow oh) best).detected = true)
    ∧ (∀ c ∈ cands, ONNX_CONFIDENCE_THRESHOLD < maxScore c →
        maxScore c ≤ (cands.foldl (onnxStep ow oh) best).confidence) := by
  induction cands generalizing best with
  | nil => simp
  | cons c cs ih =>
    rw [List.foldl_cons]
    obtain ⟨ih1, ih2, ih3⟩ := ih (onnxStep ow oh best c)
    rcases onnxStep_cases ow oh best c with
      ⟨hc, hl, hd, hno⟩ | ⟨hthr, hlt, hc, hl, hd⟩
    · refine ⟨?_, ?_, ?_⟩
      · rw [← hc]; exact ih1
      · rcases ih2 with ⟨e1, e2, e3⟩ | ⟨e, he, ht, hlte, hce, hle, hde⟩
        · exact Or.inl ⟨e1.trans hc, e2.trans hl, e3.trans hd⟩
        · exact Or.inr ⟨e, List.mem_cons_of_mem c he, ht, hc ▸ hlte, hce, hle, hde⟩
      · intro e he hte
        rcases List.mem_cons.mp he with rfl | he2
        · by_cases hcd : best.confidence < maxScore e
          · exact absurd ⟨hte, hcd⟩ hno
          · calc maxScore e ≤ best.confidence := not_lt.mp hcd
              _ = (onnxStep ow oh best e).confidence := hc.symm
              _ ≤ _ := ih1
        · exact ih3 e he2 hte
    · refine ⟨?_, ?_, ?_⟩
      · calc best.confidence ≤ maxScore c := le_of_lt hlt
          _ = (onnxStep ow oh best c).confidence := hc.symm
          _ ≤ _ := ih1
      · rcases ih2 with ⟨e1, e2, e3⟩ | ⟨e, he, ht, hlte, hce, hle, hde⟩
        · exact Or.inr ⟨c, List.mem_cons_self c cs, hthr, hlt,
            e1.trans hc, e2.trans hl, e3.trans hd⟩
        · exact Or.inr ⟨e, List.mem_cons_of_mem c he, ht,
            lt_trans (hc ▸ hlt) hlte, hce, hle, hde⟩
      · intro e he hte
        rcases List.mem_cons.mp he with rfl | he2
        · calc maxScore e = (onnxStep ow oh best e).confidence := hc.symm
            _ ≤ _ := ih1
        · exact ih3 e he2 hte

/-! ## Claim theorems -/

/-- C2: the stateless decision engine returns APPROVED exactly when no fraud
signal fired, both sides were detected, and both confidences are at or above
the low-confidence threshold; consequently any decode failure or missing
detection on a supplied side resolves to REJECTED or PENDING_REVIEW, never to
APPROVED. -/
theorem approved_iff_both_confident_and_clean (front back : ImageInput) (t low : ℚ) :
    ((detect_cards_from_base64 front back t low).status = VerificationStatus.approved ↔
      ((detect_cards_from_base64 front back t low).print_aadhar_detected = false
        ∧ (detect_cards_from_base64 front back t low).front_detected = true
        ∧ (detect_cards_from_base64 front back t low).back_detected = true
        ∧ low ≤ (detect_cards_from_base64 front back t low).front_confidence
        ∧ low ≤ (detect_cards_from_base64 front back t low).back_confidence))
    ∧ ((front = ImageInput.undecodable ∨ back = ImageInput.undecodable) →
        (detect_cards_from_base64 front back t low).status ≠ VerificationStatus.approved) := by
  obtain ⟨hf1, hf2, hf3, hf4, hf5⟩ := applyStatus_fields low (buildCardsResult front back t)
  have hiff := applyStatus_approved_iff low (buildCardsResult front back t)
      (buildCardsResult_status front back t)
  have hmain : (detect_cards_from_base64 front back t low).status = VerificationStatus.approved ↔
      ((detect_cards_from_base64 front back t low).print_aadhar_detected = false
        ∧ (detect_cards_from_base64 front back t low).front_detected = true
        ∧ (detect_cards_from_base64 front back t low).back_detected = true
        ∧ low ≤ (detect_cards_from_base64 front back t low).front_confidence
        ∧ low ≤ (detect_cards_from_base64 front back t low).back_confidence) := by
    rw [detect_cards_from_base64, hf1, hf2, hf3, hf4, hf5]
    exact hiff
  refine ⟨hmain, ?_⟩
  rintro (rfl | rfl) happ
  · have hfd := (hmain.mp happ).2.1
    rw [detect_cards_from_base64, hf1] at hfd
    exact absurd hfd (by simp [buildCardsResult, processSide])
  · have hbd := (hmain.mp happ).2.2.1
    rw [detect_cards_from_base64, hf2] at hbd
    exact absurd hbd (by simp [buildCardsResult, processSide])

/-- C3 (counterexample): the claim says a side confidence is the maximum over
the matching detections, citing main.py; there the per-side loop overwrites
the confidence with every matching detection at or above the threshold, so two
front detections at 9/10 then 1/2 report 1/2 (the last scanned), not the
maximum 9/10. -/
theorem legacy_side_confidence_is_last_not_max :
    (detect_cards (PathInput.readable
      [{ label := "aadhar_front", conf := 90 }, { label := "aadhar_front", conf := 50 }])
      PathInput.absent 15).front_detected = true
    ∧ (detect_cards (PathInput.readable
      [{ label := "aadhar_front", conf := 90 }, { label := "aadhar_front", conf := 50 }])
      PathInput.absent 15).front_confidence = 50
    ∧ ¬((detect_cards (PathInput.readable
      [{ label := "aadhar_front", conf := 90 }, { label := "aadhar_front", conf := 50 }])
      PathInput.absent 15).front_confidence = 90) :=
  ⟨by decide, by decide, by decide⟩

/-- C3 (amended): in the stateless detector the reported confidence of a
detected image is the maximum confidence among the card-labelled detections at
or above the threshold — not the sum and not the last one scanned — and the
label of a maximum-confidence matching detection becomes the matched class;
the legacy main.py loop instead reports the last matching detection scanned. -/
theorem stateless_confidence_is_max (boxes : List Detection) (t : ℚ)
    (h : (detect_from_bytes boxes t).detected = true) :
    (∃ d ∈ boxes, isMatching t d
        ∧ d.conf = (detect_from_bytes boxes t).confidence
        ∧ (detect_from_bytes boxes t).cls = some d.label)
    ∧ ∀ d ∈ boxes, isMatching t d → d.conf ≤ (detect_from_bytes boxes t).confidence := by
  obtain ⟨-, -, h3, h4⟩ := detect_from_bytes_detected_spec boxes t h
  exact ⟨h3, h4⟩

/-- C3 witness: concrete run of the amended statement, with matching
detections at 2/5, 4/5 and a back-labelled 3/5 on the front image; the
reported confidence is the maximum 4/5. -/
theorem stateless_confidence_is_max_witness :
    (detect_from_bytes
      [{ label := "aadhar_front", conf := 40 }, { label := "aadhar_front", conf := 80 },
       { label := "aadhar_back", conf := 60 }] 15).detected = true
    ∧ ((∃ d ∈ [({ label := "aadhar_front", conf := 40 } : Detection),
          { label := "aadhar_front", conf := 80 }, { label := "aadhar_back", conf := 60 }],
          isMatching 15 d
          ∧ d.conf = (detect_from_bytes
              [{ label := "aadhar_front", conf := 40 }, { label := "aadhar_front", conf := 80 },
               { label := "aadhar_back", conf := 60 }] 15).confidence
          ∧ (detect_from_bytes
              [{ label := "aadhar_front", conf := 40 }, { label := "aadhar_front", conf := 80 },
               { label := "aadhar_back", conf := 60 }] 15).cls = some d.label)
        ∧ ∀ d ∈ [({ label := "aadhar_front", conf := 40 } : Detection),
            { label := "aadhar_front", conf := 80 }, { label := "aadhar_back", conf := 60 }],
            isMatching 15 d →
              d.conf ≤ (detect_from_bytes
                [{ label := "aadhar_front", conf := 40 }, { label := "aadhar_front", conf := 80 },
                 { label := "aadhar_back", conf := 60 }] 15).confidence) :=
  ⟨by decide, stateless_confidence_is_max _ _ (by decide)⟩

/-- C4: whenever a side is reported detected, its reported confidence is at or
above the base confidence threshold: detections below the threshold are
invisible to the matching stage, both in the stateless detection loop and in
the legacy per-side loops of main.py. -/
theorem detected_confidence_at_least_threshold (t : ℚ) :
    (∀ boxes : List Detection, (detect_from_bytes boxes t).detected = true →
      t ≤ (detect_from_bytes boxes t).confidence)
    ∧ ∀ front back : PathInput,
      ((detect_cards front back t).front_detected = true →
        t ≤ (detect_cards front back t).front_confidence)
      ∧ ((detect_cards front back t).back_detected = true →
        t ≤ (detect_cards front back t).back_confidence) := by
  refine ⟨fun boxes h => (detect_from_bytes_detected_spec boxes t h).1,
    fun front back => ⟨?_, ?_⟩⟩
  · exact fun h => mainPyProcessPath_detected front t "aadhar_front" "Front" h
  · exact fun h => mainPyProcessPath_detected back t "aadhar_back" "Back" h

/-- C4 witness: a single front detection at 2/5 with threshold 3/20 is
reported detected with confidence at or above the threshold. -/
theorem detected_confidence_at_least_threshold_witness :
    (detect_from_bytes [{ label := "aadhar_front", conf := 40 }] 15).detected = true
    ∧ (15 : ℚ) ≤ (detect_from_bytes [{ label := "aadhar_front", conf := 40 }] 15).confidence :=
  ⟨by decide, (detected_confidence_at_least_threshold 15).1 _ (by decide)⟩

/-- C5: a side that is not reported detected reports confidence exactly 0, in
the stateless detection loop, in the legacy per-side loops of main.py, and at
the request level of the stateless engine; in particular zero detections, only
below-threshold detections, or only non-matching labels give confidence 0 (each
embedded function is total, mirroring the no-exception path of the source). -/
theorem undetected_confidence_zero (t : ℚ) :
    (∀ boxes : List Detection, (detect_from_bytes boxes t).detected = false →
      (detect_from_bytes boxes t).confidence = 0)
    ∧ (∀ front back : PathInput,
      ((detect_cards front back t).front_detected = false →
        (detect_cards front back t).front_confidence = 0)
      ∧ ((detect_cards front back t).back_detected = false →
        (detect_cards front back t).back_confidence = 0))
    ∧ ∀ (front back : ImageInput) (low : ℚ),
      ((detect_cards_from_base64 front back t low).front_detected = false →
        (detect_cards_from_base64 front back t low).front_confidence = 0)
      ∧ ((detect_cards_from_base64 front back t low).back_detected = false →
        (detect_cards_from_base64 front back t low).back_confidence = 0) := by
  refine ⟨fun boxes h => detect_from_bytes_not_detected boxes t h,
    fun front back => ⟨?_, ?_⟩, ?_⟩
  · exact fun h => mainPyProcessPath_not_detected front t "aadhar_front" "Front" h
  · exact fun h => mainPyProcessPath_not_detected back t "aadhar_back" "Back" h
  · intro front back low
    obtain ⟨hf1, hf2, hf3, hf4, -⟩ := applyStatus_fields low (buildCardsResult front back t)
    constructor
    · intro h
      rw [detect_cards_from_base64] at h ⊢
      rw [hf1] at h
      rw [hf3]
      exact processSide_not_detected front t "aadhar_front" "front" h
    · intro h
      rw [detect_cards_from_base64] at h ⊢
      rw [hf2] at h
      rw [hf4]
      exact processSide_not_detected back t "aadhar_back" "back" h

/-- C5 witness: an image whose only detection is below the threshold reports
detected = false and confidence 0. -/
theorem undetected_confidence_zero_witness :
    (detect_from_bytes [{ label := "aadhar_front", conf := 10 }] 15).detected = false
    ∧ (detect_from_bytes [{ label := "aadhar_front", conf := 10 }] 15).confidence = 0 :=
  ⟨by decide, (undetected_confidence_zero 15).1 _ (by decide)⟩

/-- C10: in the stateless decision engine, a request with exactly one side
detected, no fraud signal, and the detected side confidence at or above the
low-confidence threshold keeps the initial REJECTED status: a confidently
detected single side is not APPROVED or PENDING_REVIEW. -/
theorem single_confident_side_rejected (front back : ImageInput) (t low : ℚ)
    (hp : (detect_cards_from_base64 front back t low).print_aadhar_detected = false)
    (h : ((detect_cards_from_base64 front back t low).front_detected = true
            ∧ (detect_cards_from_base64 front back t low).back_detected = false
            ∧ low ≤ (detect_cards_from_base64 front back t low).front_confidence)
        ∨ ((detect_cards_from_base64 front back t low).front_detected = false
            ∧ (detect_cards_from_base64 front back t low).back_detected = true
            ∧ low ≤ (detect_cards_from_base64 front back t low).back_confidence)) :
    (detect_cards_from_base64 front back t low).status = VerificationStatus.rejected := by
  obtain ⟨hf1, hf2, hf3, hf4, hf5⟩ := applyStatus_fields low (buildCardsResult front back t)
  rw [detect_cards_from_base64] at hp h ⊢
  rw [hf5] at hp
  rcases h with ⟨hfd, hbd, hge⟩ | ⟨hfd, hbd, hge⟩
  · rw [hf1] at hfd
    rw [hf2] at hbd
    rw [hf3] at hge
    have hne : (buildCardsResult front back t).front_confidence ≠ 0 :=
      ne_of_gt (processSide_detected front t "aadhar_front" "front" hfd).2
    rw [applyStatus_single_front low _ hp hfd hbd hne hge]
    exact buildCardsResult_status front back t
  · rw [hf1] at hfd
    rw [hf2] at hbd
    rw [hf4] at hge
    have hzero : (buildCardsResult front back t).front_confidence = 0 :=
      processSide_not_detected front t "aadhar_front" "front" hfd
    rw [applyStatus_single_back low _ hp hfd hbd hzero hge]
    exact buildCardsResult_status front back t

/-- C10 witness: only the front side supplied, detected at 1/2 which is at or
above the low threshold 1/10: the status is REJECTED. -/
theorem single_confident_side_rejected_witness :
    (detect_cards_from_base64 (ImageInput.decoded [{ label := "aadhar_front", conf := 50 }])
      ImageInput.absent 15 10).print_aadhar_detected = false
    ∧ (detect_cards_from_base64 (ImageInput.decoded [{ label := "aadhar_front", conf := 50 }])
      ImageInput.absent 15 10).status = VerificationStatus.rejected :=
  ⟨by decide, single_confident_side_rejected _ _ _ _ (by decide)
    (Or.inl ⟨by decide, by decide, by decide⟩)⟩

/-- C1: when the printed-copy fraud signal fired on either side, the
verification status is REJECTED and the handler reports the fraud indicator,
regardless of every other signal including force_upload, side detections and
confidence values; the endpoint evaluates this check before the force-upload
and confidence rules, returning the security-violation response with the queue
untouched. -/
theorem fraud_flag_absolute_precedence (req : DetectionRequestBase64) (low : ℚ)
    (now : String) (queue : List ManualReviewItem)
    (h : (detection_result req low).print_aadhar_detected = true) :
    (detection_result req low).status = VerificationStatus.rejected
    ∧ (detect_aadhaar_cards_stateless req low now queue).1.status_code = 400
    ∧ (detect_aadhaar_cards_stateless req low now queue).1.success = false
    ∧ (detect_aadhaar_cards_stateless req low now queue).1.print_aadhar_detected = some true
    ∧ (detect_aadhaar_cards_stateless req low now queue).2 = queue := by
  have hstat : (detection_result req low).status = VerificationStatus.rejected := by
    rw [detection_result, detect_cards_from_base64] at h ⊢
    rw [(applyStatus_fields low _).2.2.2.2] at h
    exact applyStatus_print low _ h
  have hmiss : ¬(req.front_image.supplied = false ∧ req.back_image.supplied = false) := by
    rintro ⟨h1, h2⟩
    have hf : req.front_image = ImageInput.absent := by
      cases hx : req.front_image
      · rfl
      · rw [hx] at h1; simp [ImageInput.supplied] at h1
      · rw [hx] at h1; simp [ImageInput.supplied] at h1
    have hb : req.back_image = ImageInput.absent := by
      cases hx : req.back_image
      · rfl
      · rw [hx] at h2; simp [ImageInput.supplied] at h2
      · rw [hx] at h2; simp [ImageInput.supplied] at h2
    rw [detection_result, hf, hb] at h
    have habs : (detect_cards_from_base64 ImageInput.absent ImageInput.absent
        req.confidence_threshold low).print_aadhar_detected = false := by
      rw [detect_cards_from_base64]
      rw [(applyStatus_fields low _).2.2.2.2]
      rfl
    rw [habs] at h
    exact absurd h (by simp)
  refine ⟨hstat, ?_, ?_, ?_, ?_⟩ <;>
    · unfold detect_aadhaar_cards_stateless
      rw [if_neg hmiss, if_pos h]

/-- C1 witness: a front image whose only detection is print_aadhar at
confidence 40 with threshold 15, under force_upload = true: the detector-level
status is REJECTED, the endpoint answers 400 with the fraud indicator, and the
review queue is untouched. -/
theorem fraud_flag_absolute_precedence_witness :
    (detection_result
      { user_id := "u", front_image := ImageInput.decoded [{ label := "print_aadhar", conf := 40 }],
        back_image := ImageInput.absent, confidence_threshold := 15, force_upload := true }
      10).print_aadhar_detected = true
    ∧ ((detection_result
        { user_id := "u", front_image := ImageInput.decoded [{ label := "print_aadhar", conf := 40 }],
          back_image := ImageInput.absent, confidence_threshold := 15, force_upload := true }
        10).status = VerificationStatus.rejected
      ∧ (detect_aadhaar_cards_stateless
        { user_id := "u", front_image := ImageInput.decoded [{ label := "print_aadhar", conf := 40 }],
          back_image := ImageInput.absent, confidence_threshold := 15, force_upload := true }
        10 "t" []).1.status_code = 400
      ∧ (detect_aadhaar_cards_stateless
        { user_id := "u", front_image := ImageInput.decoded [{ label := "print_aadhar", conf := 40 }],
          back_image := ImageInput.absent, confidence_threshold := 15, force_upload := true }
        10 "t" []).1.success = false
      ∧ (detect_aadhaar_cards_stateless
        { user_id := "u", front_image := ImageInput.decoded [{ label := "print_aadhar", conf := 40 }],
          back_image := ImageInput.absent, confidence_threshold := 15, force_upload := true }
        10 "t" []).1.print_aadhar_detected = some true
      ∧ (detect_aadhaar_cards_stateless
        { user_id := "u", front_image := ImageInput.decoded [{ label := "print_aadhar", conf := 40 }],
          back_image := ImageInput.absent, confidence_threshold := 15, force_upload := true }
        10 "t" []).2 = []) :=
  ⟨by decide, fraud_flag_absolute_precedence _ _ _ _ (by decide)⟩

/-- C6: a request with force_upload true, at least one image supplied, no
fraud signal, and not both sides detected is answered PENDING_REVIEW with
exactly one entry appended to the manual review queue carrying the
forced-bypass reason, regardless of the confidence values. -/
theorem force_upload_enqueues_pending_review (req : DetectionRequestBase64)
    (low : ℚ) (now : String) (queue : List ManualReviewItem)
    (hforce : req.force_upload = true)
    (hsup : ¬(req.front_image.supplied = false ∧ req.back_image.supplied = false))
    (hfraud : (detection_result req low).print_aadhar_detected = false)
    (hnb : ¬((detection_result req low).front_detected = true
        ∧ (detection_result req low).back_detected = true)) :
    (detect_aadhaar_cards_stateless req low now queue).1.status
        = some VerificationStatus.pending_review
    ∧ (detect_aadhaar_cards_stateless req low now queue).1.status_code = 200
    ∧ (detect_aadhaar_cards_stateless req low now queue).1.success = true
    ∧ (detect_aadhaar_cards_stateless req low now queue).2
        = queue ++ [{ user_id := req.user_id, timestamp := now,
                      front_confidence := (detection_result req low).front_confidence,
                      back_confidence := (detection_result req low).back_confidence,
                      reason := "Force upload - bypassed client-side checks" }] := by
  have hfr : ¬((detection_result req low).print_aadhar_detected = true) := by
    rw [hfraud]; simp
  refine ⟨?_, ?_, ?_, ?_⟩ <;>
    · unfold detect_aadhaar_cards_stateless
      rw [if_neg hsup, if_neg hfr, if_pos ⟨hforce, hnb⟩] <;> rfl

/-- C6 witness: force_upload with the front side detected at 50 and the back
side absent: the response is PENDING_REVIEW and the forced-bypass entry is the
single enqueued item. -/
theorem force_upload_enqueues_pending_review_witness :
    (detect_aadhaar_cards_stateless
      { user_id := "u", front_image := ImageInput.decoded [{ label := "aadhar_front", conf := 50 }],
        back_image := ImageInput.absent, confidence_threshold := 15, force_upload := true }
      10 "t" []).1.status = some VerificationStatus.pending_review
    ∧ (detect_aadhaar_cards_stateless
      { user_id := "u", front_image := ImageInput.decoded [{ label := "aadhar_front", conf := 50 }],
        back_image := ImageInput.absent, confidence_threshold := 15, force_upload := true }
      10 "t" []).2
      = [] ++ [{ user_id := "u", timestamp := "t",
                 front_confidence := (detection_result
                   { user_id := "u",
                     front_image := ImageInput.decoded [{ label := "aadhar_front", conf := 50 }],
                     back_image := ImageInput.absent, confidence_threshold := 15,
                     force_upload := true }
                   10).front_confidence,
                 back_confidence := (detection_result
                   { user_id := "u",
                     front_image := ImageInput.decoded [{ label := "aadhar_front", conf := 50 }],
                     back_image := ImageInput.absent, confidence_threshold := 15,
                     force_upload := true }
                   10).back_confidence,
                 reason := "Force upload - bypassed client-side checks" }] :=
  ⟨(force_upload_enqueues_pending_review _ _ _ _ (by decide) (by decide) (by decide)
      (by decide)).1,
   (force_upload_enqueues_pending_review _ _ _ _ (by decide) (by decide) (by decide)
      (by decide)).2.2.2⟩

/-- C7: the manual review queue is modified only by the force-upload branch
and the low-confidence PENDING_REVIEW branch: a fraud rejection or a response
carrying the REJECTED status leaves the queue unchanged, and any modification
is a single appended entry whose reason is the forced-bypass reason or the
low-confidence reason (and the response then carries PENDING_REVIEW). -/
theorem review_queue_modified_only_for_review (req : DetectionRequestBase64)
    (low : ℚ) (now : String) (queue : List ManualReviewItem) :
    ((detection_result req low).print_aadhar_detected = true →
      (detect_aadhaar_cards_stateless req low now queue).2 = queue)
    ∧ ((detect_aadhaar_cards_stateless req low now queue).1.status
          = some VerificationStatus.rejected →
      (detect_aadhaar_cards_stateless req low now queue).2 = queue)
    ∧ ((detect_aadhaar_cards_stateless req low now queue).2 ≠ queue →
      (detect_aadhaar_cards_stateless req low now queue).1.status
          = some VerificationStatus.pending_review
      ∧ ∃ item : ManualReviewItem,
          (detect_aadhaar_cards_stateless req low now queue).2 = queue ++ [item]
          ∧ (item.reason = "Force upload - bypassed client-side checks"
            ∨ item.reason = "Low confidence detection")) := by
  unfold detect_aadhaar_cards_stateless
  split_ifs with h1 h2 h3 h4
  · exact ⟨fun _ => rfl, fun _ => rfl, fun hne => absurd rfl hne⟩
  · exact ⟨fun _ => rfl, fun _ => rfl, fun hne => absurd rfl hne⟩
  · refine ⟨fun hp => absurd hp h2, fun hs => absurd hs (by simp), fun _ => ⟨rfl, ?_⟩⟩
    exact ⟨_, rfl, Or.inl rfl⟩
  · refine ⟨fun hp => absurd hp h2, fun hs => ?_, fun _ => ⟨?_, ?_⟩⟩
    · simp only [Option.some.injEq] at hs
      exact absurd (h4.symm.trans hs) (by decide)
    · simp only [Option.some.injEq]
      exact h4
    · exact ⟨_, rfl, Or.inr rfl⟩
  · exact ⟨fun _ => rfl, fun _ => rfl, fun hne => absurd rfl hne⟩

/-- C7 witness: on a fraud rejection (front image with a print_aadhar
detection at 40) the review queue is left unchanged. -/
theorem review_queue_modified_only_for_review_witness :
    (detect_aadhaar_cards_stateless
      { user_id := "u", front_image := ImageInput.decoded [{ label := "print_aadhar", conf := 40 }],
        back_image := ImageInput.absent, confidence_threshold := 15, force_upload := false }
      10 "t" []).2 = [] :=
  (review_queue_modified_only_for_review _ 10 "t" []).1 (by decide)

/-- C8 (counterexample): configuring the low-confidence threshold to 50, far
above the base threshold default, is accepted unchanged and startup completes
normally: no ConfigurationError is raised anywhere in the code, so the
inconsistent configuration is served. -/
theorem no_threshold_validation_at_startup :
    loadThresholds none (some 50) = (CONFIDENCE_THRESHOLD, 50)
    ∧ CONFIDENCE_THRESHOLD < 50
    ∧ startup_event true (loadThresholds none (some 50)) = StartupOutcome.initialized :=
  ⟨rfl, by norm_num [CONFIDENCE_THRESHOLD], rfl⟩

/-- C8 (amended): the startup hook never inspects the configured thresholds:
it succeeds exactly when the model file exists, for every threshold pair,
including pairs where the low-confidence threshold exceeds the base
threshold. -/
theorem startup_ignores_thresholds (modelExists : Bool) (thresholds : ℚ × ℚ) :
    startup_event modelExists thresholds = StartupOutcome.initialized
      ↔ modelExists = true := by
  unfold startup_event
  cases modelExists <;> simp

/-- C9: the raw-tensor normalizer labels each candidate by the class-score
channel holding its maximum score, and the reported best detection carries the
global maximum of the per-candidate maxima above the threshold together with
the mapped class name of the argmax channel of a candidate attaining it. -/
theorem onnx_best_is_global_argmax (ow oh : ℚ) (cands : List Candidate)
    (c : Candidate) (hc : c ∈ cands)
    (hthr : ONNX_CONFIDENCE_THRESHOLD < maxScore c) :
    (detect ow oh cands).detected = true
    ∧ (∀ e ∈ cands, maxScore e ≤ (detect ow oh cands).confidence)
    ∧ ∃ e ∈ cands, maxScore e = (detect ow oh cands).confidence
        ∧ (detect ow oh cands).card_type = CLASS_NAMES[maxClassIdx e]? := by
  obtain ⟨h1, h2, h3⟩ := onnxFold_spec ow oh cands
    { detected := false, card_type := none, confidence := 0, bbox := none }
  have hcb : maxScore c ≤ (detect ow oh cands).confidence := h3 c hc hthr
  have hpos : (0 : ℚ) < maxScore c :=
    lt_trans (by norm_num [ONNX_CONFIDENCE_THRESHOLD]) hthr
  rcases h2 with ⟨hce, -, -⟩ | ⟨e, he, ht, hlt, hce, hle, hde⟩
  · have : maxScore c ≤ 0 := by
      calc maxScore c ≤ (detect ow oh cands).confidence := hcb
        _ = 0 := hce
    exact absurd this (not_le.mpr hpos)
  · refine ⟨hde, ?_, ⟨e, he, hce.symm, hle⟩⟩
    intro e2 he2
    by_cases h : ONNX_CONFIDENCE_THRESHOLD < maxScore e2
    · exact h3 e2 he2 h
    · calc maxScore e2 ≤ ONNX_CONFIDENCE_THRESHOLD := not_lt.mp h
        _ ≤ maxScore c := le_of_lt hthr
        _ ≤ _ := hcb

/-- C9 witness: a synthetic tensor with one candidate whose second class-score
channel (channel 5, class index 1) holds the global maximum 90 normalizes to a
detection labelled with class index 1 mapped name. -/
theorem onnx_best_is_global_argmax_witness :
    (⟨10, 10, 4, 4, 10, 90, 20⟩ : Candidate) ∈ [(⟨10, 10, 4, 4, 10, 90, 20⟩ : Candidate)]
    ∧ ONNX_CONFIDENCE_THRESHOLD < maxScore ⟨10, 10, 4, 4, 10, 90, 20⟩
    ∧ ((detect 640 640 [⟨10, 10, 4, 4, 10, 90, 20⟩]).detected = true
      ∧ (∀ e ∈ [(⟨10, 10, 4, 4, 10, 90, 20⟩ : Candidate)],
          maxScore e ≤ (detect 640 640 [⟨10, 10, 4, 4, 10, 90, 20⟩]).confidence)
      ∧ ∃ e ∈ [(⟨10, 10, 4, 4, 10, 90, 20⟩ : Candidate)],
          maxScore e = (detect 640 640 [⟨10, 10, 4, 4, 10, 90, 20⟩]).confidence
          ∧ (detect 640 640 [⟨10, 10, 4, 4, 10, 90, 20⟩]).card_type
              = CLASS_NAMES[maxClassIdx e]?) :=
  ⟨List.mem_singleton_self _,
   by norm_num [ONNX_CONFIDENCE_THRESHOLD, maxScore],
   onnx_best_is_global_argmax 640 640 _ _ (List.mem_singleton_self _)
     (by norm_num [ONNX_CONFIDENCE_THRESHOLD, maxScore])⟩

/-- C2 witness: both sides detected at 92 and 88 with no fraud are APPROVED,
while an undecodable front image is never APPROVED. -/
theorem approved_iff_both_confident_and_clean_witness :
    (detect_cards_from_base64 (ImageInput.decoded [{ label := "aadhar_front", conf := 92 }])
      (ImageInput.decoded [{ label := "aadhar_back", conf := 88 }]) 15 10).status
        = VerificationStatus.approved
    ∧ (detect_cards_from_base64 ImageInput.undecodable
      (ImageInput.decoded [{ label := "aadhar_back", conf := 50 }]) 15 10).status
        ≠ VerificationStatus.approved :=
  ⟨(approved_iff_both_confident_and_clean _ _ 15 10).1.mpr
      ⟨by decide, by decide, by decide, by decide, by decide⟩,
   (approved_iff_both_confident_and_clean _ _ 15 10).2 (Or.inl rfl)⟩

/-- C8 witness (amended claim): startup succeeds on an inconsistent threshold
pair with the low threshold 50 above the base threshold 15. -/
theorem startup_ignores_thresholds_witness :
    startup_event true (15, 50) = StartupOutcome.initialized :=
  (startup_ignores_thresholds true (15, 50)).mpr rfl
